import Mathlib

/-!
# Verification of the trading-bot-platform core

Shallow embedding of the repository's core trading logic:

* `src/strategy/position.ts` — two-leg position engine
  (`createTwoLegPosition`, `updatePositions`, `closeRunnersOnTrimSignal`);
* `src/indicators/atr.ts` — `calculateATRLevels`, `updateTrailingStop`;
* `src/multi-asset/MultiAssetManager.ts` — risk gate (`canAssetTrade`);
* `src/execution/CircuitBreaker.ts` — safety state machine;
* `src/execution/PaperBroker.ts` (shipped inside `src/multi-asset/index.ts`)
  — simulated broker close path;
* `src/execution/LiveBroker.ts` — live close path (mint selection skeleton);
* `src/solana/jupiter.ts` / dashboard `priceProvider.ts` — `validateQuote`.

JavaScript numbers are modelled as rationals (`ℚ`); where the source can
produce `NaN`/`Infinity` (division), a dedicated `JsVal` type models the
IEEE special values so comparisons behave as in JavaScript.  Timestamps are
integers.  `Date.now()` and `Math.random()` results are passed in as
explicit parameters.  Optional JS fields are `Option`; the JS `||` and `??`
operators are modelled explicitly (`jsOrQ`, `jsOrStr`, with the falsiness of
`0`, `""` and `undefined`).
-/

namespace TradingBot

/-- JS number value that may be `NaN` or `±Infinity` (result of division). -/
inductive JsVal where
  | fin (q : ℚ)
  | nan
  | posInf
  | negInf
deriving DecidableEq, Repr

/-- JS division `a / b` on finite operands: `0/0 = NaN`, `a/0 = ±Infinity`. -/
def jsDiv (a b : ℚ) : JsVal :=
  if b = 0 then
    if a = 0 then JsVal.nan
    else if 0 < a then JsVal.posInf
    else JsVal.negInf
  else JsVal.fin (a / b)

/-- JS multiplication of a possibly-special value by the literal `100`. -/
def jsMul100 : JsVal → JsVal
  | JsVal.fin q => JsVal.fin (q * 100)
  | JsVal.nan => JsVal.nan
  | JsVal.posInf => JsVal.posInf
  | JsVal.negInf => JsVal.negInf

/-- JS comparison `v > m` (false on `NaN`). -/
def jsGtQ : JsVal → ℚ → Bool
  | JsVal.fin q, m => decide (m < q)
  | JsVal.nan, _ => false
  | JsVal.posInf, _ => true
  | JsVal.negInf, _ => false

/-- JS comparison `v < m` (false on `NaN`). -/
def jsLtQ : JsVal → ℚ → Bool
  | JsVal.fin q, m => decide (q < m)
  | JsVal.nan, _ => false
  | JsVal.posInf, _ => false
  | JsVal.negInf, _ => true

/-- JS `x || d` for an optional number: `undefined` and `0` are falsy. -/
def jsOrQ (x : Option ℚ) (d : ℚ) : ℚ :=
  match x with
  | none => d
  | some q => if q = 0 then d else q

/-- JS `a || b` for optional strings: `undefined` and `""` are falsy. -/
def jsOrStr (a b : Option String) : Option String :=
  match a with
  | none => b
  | some s => if s = "" then b else some s

/-! ## Data model (`src/types/index.ts` and runtime-added fields) -/

inductive SignalType where
  | LONG
  | SHORT
  | NONE
deriving DecidableEq, Repr

structure Signal where
  type : SignalType
  timestamp : ℤ
  price : ℚ
  mfi : ℚ
  atr : ℚ
deriving DecidableEq, Repr

inductive LegType where
  | TP
  | RUNNER
deriving DecidableEq, Repr

inductive LegStatus where
  | OPEN
  | CLOSED
deriving DecidableEq, Repr

/-- One side of a two-leg position.  `positionId` and `btcMint` are written
by `createTwoLegPosition` / `LiveBroker.openPosition` at runtime (absent on
legacy legs), hence `Option`. -/
structure PositionLeg where
  id : String
  positionId : Option String
  type : LegType
  entryPrice : ℚ
  quantity : ℚ
  entryTime : ℤ
  targetPrice : Option ℚ
  trailingStop : Option ℚ
  highestPrice : Option ℚ
  status : LegStatus
  closePrice : Option ℚ
  closeTime : Option ℤ
  closeReason : Option String
  btcMint : Option String
deriving DecidableEq, Repr

structure Candle where
  timestamp : ℤ
  openPrice : ℚ
  high : ℚ
  low : ℚ
  close : ℚ
  volume : ℚ
deriving DecidableEq, Repr

/-! ## `src/indicators/atr.ts` -/

structure ATRLevels where
  takeProfitPrice : ℚ
  initialStopPrice : ℚ
  atrDistance : ℚ
deriving DecidableEq, Repr

/-- `calculateATRLevels` (atr.ts): TP and initial-stop levels from entry and ATR. -/
def calculateATRLevels (entryPrice atr tpMultiplier stopMultiplier : ℚ) : ATRLevels :=
  { takeProfitPrice := entryPrice + atr * tpMultiplier
    initialStopPrice := entryPrice - atr * stopMultiplier
    atrDistance := atr }

/-- `updateTrailingStop` (atr.ts): the stop only moves up, never down. -/
def updateTrailingStop (highestPrice currentStop atr multiplier : ℚ) : ℚ :=
  max (highestPrice - atr * multiplier) currentStop

/-! ## `src/strategy/position.ts` — the Position Engine -/

/-- `generateLegId`: the caller supplies the `Math.random` suffix. -/
def generateLegId (type : LegType) (timestamp : ℤ) (rnd : String) : String :=
  (match type with | LegType.TP => "TP" | LegType.RUNNER => "RUNNER")
    ++ "_" ++ toString timestamp ++ "_" ++ rnd

/-- `generatePositionId`: the caller supplies the `Math.random` suffix. -/
def generatePositionId (timestamp : ℤ) (rnd : String) : String :=
  "POS_" ++ toString timestamp ++ "_" ++ rnd

/-- `createTwoLegPosition` (position.ts): throws on a non-LONG signal,
otherwise returns the TP leg and the RUNNER leg. -/
def createTwoLegPosition (signal : Signal) (usdcAmount tpMultiplier stopMultiplier : ℚ)
    (rndTp rndRunner rndPos : String) : Except String (List PositionLeg) :=
  if signal.type ≠ SignalType.LONG then
    Except.error "Can only create positions from LONG signals"
  else
    let entryPrice := signal.price
    let atr := signal.atr
    let timestamp := signal.timestamp
    let positionId := generatePositionId timestamp rndPos
    let levels := calculateATRLevels entryPrice atr tpMultiplier stopMultiplier
    let quantity := usdcAmount / entryPrice
    let tpLeg : PositionLeg :=
      { id := generateLegId LegType.TP timestamp rndTp
        positionId := some positionId
        type := LegType.TP
        entryPrice := entryPrice
        quantity := quantity
        entryTime := timestamp
        targetPrice := some levels.takeProfitPrice
        trailingStop := none
        highestPrice := none
        status := LegStatus.OPEN
        closePrice := none
        closeTime := none
        closeReason := none
        btcMint := none }
    let runnerLeg : PositionLeg :=
      { id := generateLegId LegType.RUNNER timestamp rndRunner
        positionId := some positionId
        type := LegType.RUNNER
        entryPrice := entryPrice
        quantity := quantity
        entryTime := timestamp
        targetPrice := none
        trailingStop := none
        highestPrice := some entryPrice
        status := LegStatus.OPEN
        closePrice := none
        closeTime := none
        closeReason := none
        btcMint := none }
    Except.ok [tpLeg, runnerLeg]

/-- The `legs.some(...)` scan of `updatePositions`: some OPEN TP leg has
`currentPrice >= (leg.targetPrice || 0)` — note: no `positionId` filter. -/
def tpJustClosedCheck (legs : List PositionLeg) (currentPrice : ℚ) : Bool :=
  legs.any fun leg =>
    leg.type = LegType.TP ∧ leg.status = LegStatus.OPEN ∧
      jsOrQ leg.targetPrice 0 ≤ currentPrice

/-- The runner's trailing stop after the breakeven-lock activation step of
`updatePositions` (`if (tpJustClosed && leg.trailingStop === undefined)`). -/
def runnerStopAfterActivation (tpJustClosed : Bool)
    (currentATR breakEvenLockMultiplier : ℚ) (leg : PositionLeg) : Option ℚ :=
  if tpJustClosed ∧ leg.trailingStop = none then
    some (leg.entryPrice + currentATR * breakEvenLockMultiplier)
  else leg.trailingStop

/-- The fresh highest price of a runner:
`Math.max(leg.highestPrice || leg.entryPrice, currentPrice)`. -/
def runnerNewHighest (currentPrice : ℚ) (leg : PositionLeg) : ℚ :=
  max (jsOrQ leg.highestPrice leg.entryPrice) currentPrice

/-- RUNNER branch of the `updatePositions` loop body: activate the stop if
the TP scan fired, refresh the highest price, ratchet the stop, close when
the current price is at or below it. -/
def runnerUpdate (tpJustClosed : Bool) (currentPrice currentATR trailMultiplier
    breakEvenLockMultiplier : ℚ) (now : ℤ) (leg : PositionLeg) : PositionLeg :=
  match runnerStopAfterActivation tpJustClosed currentATR breakEvenLockMultiplier leg with
  | none => { leg with highestPrice := some (runnerNewHighest currentPrice leg) }
  | some stop =>
    if currentPrice ≤
        updateTrailingStop (runnerNewHighest currentPrice leg) stop currentATR
          trailMultiplier then
      { leg with
          highestPrice := some (runnerNewHighest currentPrice leg)
          trailingStop := some (updateTrailingStop (runnerNewHighest currentPrice leg)
            stop currentATR trailMultiplier)
          status := LegStatus.CLOSED
          closePrice := some (updateTrailingStop (runnerNewHighest currentPrice leg)
            stop currentATR trailMultiplier)
          closeTime := some now
          closeReason := some "Trailing stop hit" }
    else
      { leg with
          highestPrice := some (runnerNewHighest currentPrice leg)
          trailingStop := some (updateTrailingStop (runnerNewHighest currentPrice leg)
            stop currentATR trailMultiplier) }

/-- Body of the `for (const leg of legs)` loop of `updatePositions`,
for one leg.  `now` stands for `Date.now()`. -/
def updateLeg (tpJustClosed : Bool) (currentPrice currentATR trailMultiplier
    breakEvenLockMultiplier : ℚ) (now : ℤ) (leg : PositionLeg) : PositionLeg :=
  if leg.status = LegStatus.CLOSED then leg
  else
    match leg.type with
    | LegType.TP =>
      match leg.targetPrice with
      | some target =>
        if target ≤ currentPrice then
          { leg with
              status := LegStatus.CLOSED
              closePrice := some target
              closeTime := some now
              closeReason := some "TP target hit" }
        else leg
      | none => leg
    | LegType.RUNNER =>
      runnerUpdate tpJustClosed currentPrice currentATR trailMultiplier
        breakEvenLockMultiplier now leg

/-- `updatePositions` (position.ts). -/
def updatePositions (legs : List PositionLeg) (currentPrice currentATR trailMultiplier
    breakEvenLockMultiplier : ℚ) (now : ℤ) : List PositionLeg :=
  let tpJustClosed := tpJustClosedCheck legs currentPrice
  legs.map (updateLeg tpJustClosed currentPrice currentATR trailMultiplier
    breakEvenLockMultiplier now)

/-- `getOpenLegs` (position.ts). -/
def getOpenLegs (legs : List PositionLeg) : List PositionLeg :=
  legs.filter fun leg => leg.status = LegStatus.OPEN

/-- `getClosedLegs` (position.ts). -/
def getClosedLegs (legs : List PositionLeg) : List PositionLeg :=
  legs.filter fun leg => leg.status = LegStatus.CLOSED

/-- `closeRunnersOnTrimSignal` (position.ts). -/
def closeRunnersOnTrimSignal (legs : List PositionLeg) (signal : Signal) :
    List PositionLeg :=
  if signal.type ≠ SignalType.SHORT then legs
  else
    legs.map fun leg =>
      if leg.type = LegType.RUNNER ∧ leg.status = LegStatus.OPEN then
        { leg with
            status := LegStatus.CLOSED
            closePrice := some signal.price
            closeTime := some signal.timestamp
            closeReason := some "Trim signal (MFI < 70)" }
      else leg

/-! ## `src/multi-asset/MultiAssetManager.ts` — the Risk Gate -/

structure AssetPositions where
  asset : String
  openLegs : List PositionLeg
  lastSignalTime : ℤ
  lastTradeTime : ℤ
deriving DecidableEq, Repr

structure MultiAssetBotState where
  lastProcessedCandleTime : ℤ
  lastDayReset : String
  assetPositions : List AssetPositions
deriving DecidableEq, Repr

structure MultiAssetManagerConfig where
  maxPositionsPerAsset : ℕ
  maxTotalPositions : ℕ
  minTimeBetweenTradesMs : ℤ
deriving DecidableEq, Repr

/-- `getAssetPositions`: `state.assetPositions.find(ap => ap.asset === assetSymbol)`. -/
def getAssetPositions (state : MultiAssetBotState) (assetSymbol : String) :
    Option AssetPositions :=
  state.assetPositions.find? fun ap => ap.asset = assetSymbol

/-- The `positionKey` of one leg: `leg.positionId ?? asset:entryTime`
(the legacy entry-time fallback). -/
def positionKey (asset : String) (leg : PositionLeg) : String :=
  match leg.positionId with
  | some p => p
  | none => asset ++ ":" ++ toString leg.entryTime

/-- `getOpenPositionCountForAsset`: size of the `Set` of `positionKey`s of
the open legs. -/
def getOpenPositionCountForAsset (ap : AssetPositions) : ℕ :=
  (((getOpenLegs ap.openLegs).map (positionKey ap.asset)).dedup).length

/-- `getTotalOpenPositions`. -/
def getTotalOpenPositions (state : MultiAssetBotState) : ℕ :=
  state.assetPositions.foldl (fun total ap => total + getOpenPositionCountForAsset ap) 0

/-- Structured rendering of the `reason` strings of `canAssetTrade`. -/
inductive DenyReason where
  | assetNotFound
  | assetAtMaxPositions (count maxCount : ℕ)
  | totalAtMax (count maxCount : ℕ)
  | cooldown (remainingMs : ℤ)
deriving DecidableEq, Repr

/-- Result shape `{ canTrade, reason? }` of `canAssetTrade`. -/
inductive TradeDecision where
  | allowed
  | denied (reason : DenyReason)
deriving DecidableEq, Repr

/-- `canAssetTrade` (MultiAssetManager.ts). -/
def canAssetTrade (state : MultiAssetBotState) (assetSymbol : String)
    (config : MultiAssetManagerConfig) (currentTime : ℤ) : TradeDecision :=
  match getAssetPositions state assetSymbol with
  | none => TradeDecision.denied DenyReason.assetNotFound
  | some assetPos =>
    let assetOpenPositions := getOpenPositionCountForAsset assetPos
    if config.maxPositionsPerAsset ≤ assetOpenPositions then
      TradeDecision.denied
        (DenyReason.assetAtMaxPositions assetOpenPositions config.maxPositionsPerAsset)
    else
      let totalOpen := getTotalOpenPositions state
      if config.maxTotalPositions ≤ totalOpen then
        TradeDecision.denied (DenyReason.totalAtMax totalOpen config.maxTotalPositions)
      else
        if 0 < assetPos.lastTradeTime ∧
            currentTime - assetPos.lastTradeTime < config.minTimeBetweenTradesMs then
          TradeDecision.denied (DenyReason.cooldown
            (config.minTimeBetweenTradesMs - (currentTime - assetPos.lastTradeTime)))
        else
          TradeDecision.allowed

/-! ## `src/execution/CircuitBreaker.ts` -/

structure CircuitBreakerConfig where
  maxDailyLossPct : ℚ
  maxConsecutiveLosses : ℕ
  maxDailyTrades : ℕ
  minTimeBetweenTradesMs : ℤ
  maxPriceDeviationPct : ℚ
deriving DecidableEq, Repr

/-- Structured rendering of the `tripReason` strings. -/
inductive TripReason where
  | dailyLossLimit (dailyLossPct limit : ℚ)
  | consecutiveLossLimit (losses limit : ℕ)
  | external (s : String)
deriving DecidableEq, Repr

structure CircuitBreakerState where
  dailyPnl : ℚ
  consecutiveLosses : ℕ
  tradesExecutedToday : ℕ
  lastTradeTimestamp : ℤ
  tripped : Bool
  tripReason : Option TripReason
  resetDate : String
deriving DecidableEq, Repr

/-- `resetDaily`: `today` stands for `new Date().toISOString().split('T')[0]`.
Deliberately does not touch `tripped` or `consecutiveLosses`. -/
def resetDaily (today : String) (s : CircuitBreakerState) : CircuitBreakerState :=
  if today ≠ s.resetDate then
    { s with dailyPnl := 0, tradesExecutedToday := 0, resetDate := today }
  else s

/-- `trip`. -/
def tripBreaker (reason : TripReason) (s : CircuitBreakerState) : CircuitBreakerState :=
  { s with tripped := true, tripReason := some reason }

/-- `checkConditions`: `(dailyPnl / currentPortfolioValue) * 100` with JS
division semantics, compared against `-maxDailyLossPct`; then the
consecutive-loss limit. -/
def checkConditions (config : CircuitBreakerConfig) (currentPortfolioValue : ℚ)
    (s : CircuitBreakerState) : CircuitBreakerState :=
  let dailyLossPct := jsMul100 (jsDiv s.dailyPnl currentPortfolioValue)
  if jsLtQ dailyLossPct (-config.maxDailyLossPct) then
    tripBreaker (TripReason.dailyLossLimit
      (s.dailyPnl / currentPortfolioValue * 100) config.maxDailyLossPct) s
  else if config.maxConsecutiveLosses ≤ s.consecutiveLosses then
    tripBreaker (TripReason.consecutiveLossLimit
      s.consecutiveLosses config.maxConsecutiveLosses) s
  else s

/-- `recordTrade`: `now` stands for `Date.now()`. -/
def recordTrade (config : CircuitBreakerConfig) (pnl currentPortfolioValue : ℚ)
    (now : ℤ) (s : CircuitBreakerState) : CircuitBreakerState :=
  let s1 : CircuitBreakerState :=
    { s with
        tradesExecutedToday := s.tradesExecutedToday + 1
        lastTradeTimestamp := now
        dailyPnl := s.dailyPnl + pnl
        consecutiveLosses := if pnl < 0 then s.consecutiveLosses + 1 else 0 }
  checkConditions config currentPortfolioValue s1

/-- `canTrade`: first calls `resetDaily`, then the pure checks.  Returns the
possibly-updated state together with the decision. -/
def cbCanTrade (config : CircuitBreakerConfig) (now : ℤ) (today : String)
    (s : CircuitBreakerState) : CircuitBreakerState × Bool :=
  let s1 := resetDaily today s
  if s1.tripped then (s1, false)
  else if config.maxDailyTrades ≤ s1.tradesExecutedToday then (s1, false)
  else if 0 < s1.lastTradeTimestamp ∧
      now - s1.lastTradeTimestamp < config.minTimeBetweenTradesMs then (s1, false)
  else (s1, true)

/-- `reset`: the explicit, manual reset. -/
def resetBreaker (s : CircuitBreakerState) : CircuitBreakerState :=
  { s with tripped := false, tripReason := none, consecutiveLosses := 0 }

/-- The circuit breaker's operation alphabet (its public mutating methods;
clock/calendar reads are passed as data). -/
inductive CBOp where
  | resetDailyOp (today : String)
  | canTradeOp (now : ℤ) (today : String)
  | recordTradeOp (pnl currentPortfolioValue : ℚ) (now : ℤ)
  | tripOp (reason : TripReason)
  | resetOp
deriving DecidableEq, Repr

/-- One operation step of the circuit breaker. -/
def cbStep (config : CircuitBreakerConfig) (op : CBOp) (s : CircuitBreakerState) :
    CircuitBreakerState :=
  match op with
  | CBOp.resetDailyOp today => resetDaily today s
  | CBOp.canTradeOp _ today => resetDaily today s
  | CBOp.recordTradeOp pnl value now => recordTrade config pnl value now s
  | CBOp.tripOp reason => tripBreaker reason s
  | CBOp.resetOp => resetBreaker s

/-- A sequence of circuit-breaker operations. -/
def cbRun (config : CircuitBreakerConfig) (ops : List CBOp)
    (s : CircuitBreakerState) : CircuitBreakerState :=
  ops.foldl (fun t op => cbStep config op t) s

/-! ## `src/execution/PaperBroker.ts` (simulated broker) -/

structure PaperAccount where
  usdcBalance : ℚ
  btcBalance : ℚ
  initialCapital : ℚ
  totalDeposited : ℚ
  totalWithdrawn : ℚ
deriving DecidableEq, Repr

structure PaperBrokerConfig where
  initialUsdcBalance : ℚ
  initialBtcBalance : ℚ
  slippageBps : ℚ
  tradeLegUsdc : ℚ
  atrTpMultiplier : Option ℚ
  atrTrailMultiplier : Option ℚ
  breakEvenLockMultiplier : Option ℚ
deriving DecidableEq, Repr

inductive PaperAction where
  | OPEN_POSITION
  | CLOSE_TP
  | CLOSE_RUNNER
deriving DecidableEq, Repr

/-- One entry of the paper broker's trade history. -/
structure PaperTradeExecution where
  timestamp : ℤ
  action : PaperAction
  price : ℚ
  usdcAmount : ℚ
  btcAmount : ℚ
  slippage : ℚ
deriving DecidableEq, Repr

/-- In-process ledger plus immutable trade history of the paper broker. -/
structure PaperBrokerState where
  account : PaperAccount
  tradeHistory : List PaperTradeExecution
deriving DecidableEq, Repr

/-- `applySlippage`: buys pay more, sells receive less. -/
def applySlippage (config : PaperBrokerConfig) (price : ℚ) (isBuy : Bool) : ℚ :=
  let slippageFactor := config.slippageBps / 10000
  if isBuy then price * (1 + slippageFactor) else price * (1 - slippageFactor)

/-- `PaperBroker.closeLeg`: a no-op on a CLOSED leg; otherwise fills at the
slippage-adjusted `candle.close` and records the trade. -/
def paperCloseLeg (config : PaperBrokerConfig) (st : PaperBrokerState)
    (leg : PositionLeg) (candle : Candle) : PaperBrokerState :=
  if leg.status = LegStatus.CLOSED then st
  else
    let fillPrice := applySlippage config candle.close false
    let usdcReceived := leg.quantity * fillPrice
    let account :=
      { st.account with
          btcBalance := st.account.btcBalance - leg.quantity
          usdcBalance := st.account.usdcBalance + usdcReceived }
    let execution : PaperTradeExecution :=
      { timestamp := candle.timestamp
        action := if leg.type = LegType.TP then PaperAction.CLOSE_TP
                  else PaperAction.CLOSE_RUNNER
        price := fillPrice
        usdcAmount := usdcReceived
        btcAmount := -leg.quantity
        slippage := candle.close - fillPrice }
    { account := account, tradeHistory := st.tradeHistory ++ [execution] }

/-- `PaperBroker.updateAndClosePositions`: runs the Position Engine update,
then executes a `closeLeg` for every index that went OPEN → CLOSED. -/
def paperUpdateAndClosePositions (config : PaperBrokerConfig)
    (st : PaperBrokerState) (legs : List PositionLeg) (candle : Candle)
    (currentATR : ℚ) (now : ℤ) : PaperBrokerState × List PositionLeg :=
  let updatedLegs := updatePositions legs candle.close currentATR
    (config.atrTrailMultiplier.getD (5/2)) (config.breakEvenLockMultiplier.getD (1/4)) now
  let finalState := (legs.zip updatedLegs).foldl
    (fun s pair =>
      if pair.1.status = LegStatus.OPEN ∧ pair.2.status = LegStatus.CLOSED then
        paperCloseLeg config s pair.2 candle
      else s)
    st
  (finalState, updatedLegs)

/-! ## `src/solana/jupiter.ts` / dashboard `priceProvider.ts` — `validateQuote`

The degradation computation `((originalOut - freshOut) / originalOut) * 100`
is embedded with JS division semantics (`jsDiv`); `freshOut?` is the
`outAmount` of the re-fetched quote, `none` when the fetch failed. -/

def validateQuote (originalOut : ℤ) (freshOut? : Option ℤ)
    (maxDegradationPct : ℚ) : Bool :=
  match freshOut? with
  | none => false
  | some freshOut =>
    let degradationPct :=
      jsMul100 (jsDiv ((originalOut : ℚ) - (freshOut : ℚ)) (originalOut : ℚ))
    if jsGtQ degradationPct maxDegradationPct then false else true

/-! ## `src/execution/LiveBroker.ts` — close-path mint selection

`closeLeg` computes `btcMint = leg.btcMint || config.cbBtcMint ||
config.wbtcMint`, aborts when that is falsy, and passes the very same
`btcMint` to `canClosePosition` (balance check) and to
`getQuoteBtcToUsdc` (quote request).  Only that pure skeleton is embedded;
the chain I/O is out of scope. -/

structure LiveBrokerConfig where
  usdcMint : String
  cbBtcMint : Option String
  wbtcMint : Option String
  slippageBps : ℚ
  maxPriceImpactBps : ℚ
  tradeLegUsdc : ℚ
  minBtcBalance : ℚ
  minUsdcReserve : ℚ
  atrTpMultiplier : ℚ
  atrTrailMultiplier : ℚ
deriving DecidableEq, Repr

/-- The mint `closeLeg` settles in (`leg.btcMint || cbBtcMint || wbtcMint`). -/
def liveCloseLegMint (config : LiveBrokerConfig) (leg : PositionLeg) : Option String :=
  jsOrStr leg.btcMint (jsOrStr config.cbBtcMint config.wbtcMint)

/-- The mint arguments `closeLeg` hands to its two collaborators. -/
structure CloseLegCalls where
  balanceCheckMint : String
  balanceCheckAmount : ℚ
  quoteMint : String
  quoteAmount : ℚ
deriving DecidableEq, Repr

/-- Call plan of `LiveBroker.closeLeg` up to the quote request: `none` when
the leg is already CLOSED or no mint is available. -/
def liveCloseLegCalls (config : LiveBrokerConfig) (leg : PositionLeg) :
    Option CloseLegCalls :=
  if leg.status = LegStatus.CLOSED then none
  else
    match liveCloseLegMint config leg with
    | none => none
    | some btcMint =>
      some { balanceCheckMint := btcMint
             balanceCheckAmount := leg.quantity
             quoteMint := btcMint
             quoteAmount := leg.quantity }

/-- `LiveBroker.openPosition` step 7: persist the mint actually used onto
both created legs (`createdLegs.map(leg => ({ ...leg, btcMint }))`). -/
def liveTagLegsWithMint (legs : List PositionLeg) (btcMint : String) :
    List PositionLeg :=
  legs.map fun leg => { leg with btcMint := some btcMint }

/-! ## Concrete fixtures used by the claim theorems -/

/-- An OPEN TP leg of position "A": entry 100, target 110, quantity 1. -/
def exTpA : PositionLeg :=
  { id := "tp-a", positionId := some "A", type := LegType.TP, entryPrice := 100
    quantity := 1, entryTime := 0, targetPrice := some 110, trailingStop := none
    highestPrice := none, status := LegStatus.OPEN, closePrice := none
    closeTime := none, closeReason := none, btcMint := none }

/-- An OPEN RUNNER leg of position "A": entry 100, no stop yet. -/
def exRunnerA : PositionLeg :=
  { id := "run-a", positionId := some "A", type := LegType.RUNNER, entryPrice := 100
    quantity := 1, entryTime := 0, targetPrice := none, trailingStop := none
    highestPrice := some 100, status := LegStatus.OPEN, closePrice := none
    closeTime := none, closeReason := none, btcMint := none }

/-- An OPEN RUNNER leg of an unrelated position "B": entry 200, no stop yet. -/
def exRunnerB : PositionLeg :=
  { exRunnerA with id := "run-b", positionId := some "B", entryPrice := 200
                   highestPrice := some 200 }

/-- Paper-broker fixture: zero slippage. -/
def exPaperConfig : PaperBrokerConfig :=
  { initialUsdcBalance := 10000, initialBtcBalance := 0, slippageBps := 0
    tradeLegUsdc := 100, atrTpMultiplier := some 1
    atrTrailMultiplier := some (5/2), breakEvenLockMultiplier := some (1/4) }

/-- Paper-broker fixture: 10000 USDC, 1 BTC, empty history. -/
def exPaperState : PaperBrokerState :=
  { account := { usdcBalance := 10000, btcBalance := 1, initialCapital := 10000
                 totalDeposited := 10000, totalWithdrawn := 0 }
    tradeHistory := [] }

/-- The OPEN TP leg of the repo's paper-close regression test: the Position
Engine recorded `closePrice = 105`. -/
def exLegClose105 : PositionLeg :=
  { exTpA with closePrice := some 105, closeReason := some "TP target hit" }

/-- Candle fixture closing at 120. -/
def exCandle120 : Candle :=
  { timestamp := 2, openPrice := 100, high := 110, low := 95, close := 120
    volume := 1 }

/-! Constructor-disequality rewrites used to evaluate the embedding on the
concrete fixtures. -/

theorem legStatus_open_ne : (LegStatus.OPEN = LegStatus.CLOSED) = False :=
  eq_false (by decide)

theorem legStatus_closed_ne : (LegStatus.CLOSED = LegStatus.OPEN) = False :=
  eq_false (by decide)

theorem legType_tp_ne : (LegType.TP = LegType.RUNNER) = False :=
  eq_false (by decide)

theorem legType_runner_ne : (LegType.RUNNER = LegType.TP) = False :=
  eq_false (by decide)

/-! ## C1 — simulated broker close price -/

/-- C1: divergence of `PaperBroker.closeLeg` from the claim, at the repo's
own regression-test input (`__tests__`, "uses leg.closePrice when
provided"): zero slippage, an OPEN TP leg whose Position-Engine
`closePrice` is 105, candle close 120.  The fill recorded in the trade
history and credited to the account is 120 — the re-sampled candle close —
not the leg's recorded `closePrice` 105.  Moreover, on the
`updateAndClosePositions` path the leg handed to `closeLeg` is already
CLOSED, so `closeLeg` is a no-op there: the engine records
`closePrice = 110` for `exTpA` while the account is not credited at all. -/
theorem c1_paper_close_price_divergence :
    ((paperCloseLeg exPaperConfig exPaperState exLegClose105 exCandle120).tradeHistory.map
        PaperTradeExecution.price = [120] ∧
      exLegClose105.closePrice = some 105 ∧
      (paperCloseLeg exPaperConfig exPaperState exLegClose105 exCandle120).account.usdcBalance
        = 10000 + 120 ∧
      (120 : ℚ) ≠ 105) ∧
    ((paperUpdateAndClosePositions exPaperConfig exPaperState [exTpA] exCandle120 10 8).2.map
        PositionLeg.closePrice = [some 110] ∧
      (paperUpdateAndClosePositions exPaperConfig exPaperState [exTpA] exCandle120 10 8).1
        = exPaperState) := by
  refine ⟨⟨?_, rfl, ?_, by norm_num⟩, ?_, ?_⟩ <;>
    norm_num [paperCloseLeg, applySlippage, paperUpdateAndClosePositions, updatePositions,
      updateLeg, runnerUpdate, runnerStopAfterActivation, runnerNewHighest,
      tpJustClosedCheck, jsOrQ, updateTrailingStop, exPaperConfig, exPaperState,
      exLegClose105, exCandle120, exTpA, legStatus_open_ne, legStatus_closed_ne,
      legType_tp_ne, legType_runner_ne]

/-! ## C2 — quote-degradation validation at zero output amount -/

/-- C2: divergence of `validateQuote` from the claim.  With an original
quote whose `outAmount` is `0`, the degradation ratio is computed by a
division by zero (JS `NaN` / `-Infinity`), the `>` comparison is then
false, and `validateQuote` answers `true` (valid) — not `false` as the
claim requires.  The genuine-degradation path (100 → 90, limit 2%) still
rejects, showing the `true` answers come from the missing zero guard. -/
theorem c2_validateQuote_zero_divergence :
    validateQuote 0 (some 5) 2 = true ∧
    validateQuote 0 (some 0) 2 = true ∧
    validateQuote 100 (some 90) 2 = false ∧
    validateQuote 100 (some 99) 2 = true := by
  refine ⟨?_, ?_, ?_, ?_⟩ <;> norm_num [validateQuote, jsDiv, jsMul100, jsGtQ]

/-! ## C4 — live close path uses the persisted settlement asset -/

/-- C4: for every leg that carries a persisted (non-empty) settlement mint,
`LiveBroker.closeLeg` hands exactly that mint — and the leg's quantity — to
both the balance check (`canClosePosition`) and the quote request
(`getQuoteBtcToUsdc`), whatever the configured defaults are; and
`openPosition` persists the mint actually used onto every created leg. -/
theorem c4_close_uses_persisted_mint (config : LiveBrokerConfig)
    (leg : PositionLeg) (m : String) (hmint : leg.btcMint = some m)
    (hne : m ≠ "") (hstatus : leg.status = LegStatus.OPEN) :
    liveCloseLegCalls config leg =
      some { balanceCheckMint := m, balanceCheckAmount := leg.quantity
             quoteMint := m, quoteAmount := leg.quantity } ∧
    (∀ legs mint, ∀ l ∈ liveTagLegsWithMint legs mint, l.btcMint = some mint) := by
  constructor
  · unfold liveCloseLegCalls liveCloseLegMint jsOrStr
    rw [hmint, hstatus]
    simp [hne]
  · intro legs mint l hl
    unfold liveTagLegsWithMint at hl
    obtain ⟨l0, _, rfl⟩ := List.mem_map.mp hl
    rfl

/-- C4 witness: a leg persisted with mint "wbtc" while the configured
default is "cb"; both collaborator calls receive "wbtc". -/
theorem c4_close_uses_persisted_mint_witness :
    liveCloseLegCalls
      { usdcMint := "usdc", cbBtcMint := some "cb", wbtcMint := some "wbtc"
        slippageBps := 50, maxPriceImpactBps := 100, tradeLegUsdc := 100
        minBtcBalance := 0, minUsdcReserve := 0, atrTpMultiplier := 1
        atrTrailMultiplier := 5/2 }
      { exTpA with btcMint := some "wbtc" } =
      some { balanceCheckMint := "wbtc", balanceCheckAmount := 1
             quoteMint := "wbtc", quoteAmount := 1 } ∧
    (∀ legs mint, ∀ l ∈ liveTagLegsWithMint legs mint, l.btcMint = some mint) :=
  c4_close_uses_persisted_mint
    { usdcMint := "usdc", cbBtcMint := some "cb", wbtcMint := some "wbtc"
      slippageBps := 50, maxPriceImpactBps := 100, tradeLegUsdc := 100
      minBtcBalance := 0, minUsdcReserve := 0, atrTpMultiplier := 1
      atrTrailMultiplier := 5/2 }
    { exTpA with btcMint := some "wbtc" } "wbtc" rfl (by decide) rfl

/-! ## C8 — opening a two-leg position -/

/-- C8: on a LONG signal `createTwoLegPosition` returns exactly two OPEN
legs — a TP leg and a RUNNER leg — sharing the position id generated for
this call, with equal quantities `usdcAmount / entryPrice`, the TP leg's
target at `entry + atr·tpMultiplier`, the RUNNER leg with no trailing stop
and `highestPrice = entry`; on any non-LONG signal it fails with the
contract-violation error. -/
theorem c8_open_two_legs (signal : Signal) (usdcAmount tpMultiplier stopMultiplier : ℚ)
    (rndTp rndRunner rndPos : String) :
    (signal.type = SignalType.LONG →
      ∃ tpLeg runnerLeg,
        createTwoLegPosition signal usdcAmount tpMultiplier stopMultiplier
            rndTp rndRunner rndPos = Except.ok [tpLeg, runnerLeg] ∧
        tpLeg.type = LegType.TP ∧ runnerLeg.type = LegType.RUNNER ∧
        tpLeg.status = LegStatus.OPEN ∧ runnerLeg.status = LegStatus.OPEN ∧
        tpLeg.positionId = some (generatePositionId signal.timestamp rndPos) ∧
        runnerLeg.positionId = tpLeg.positionId ∧
        tpLeg.quantity = usdcAmount / signal.price ∧
        runnerLeg.quantity = tpLeg.quantity ∧
        tpLeg.targetPrice = some (signal.price + signal.atr * tpMultiplier) ∧
        runnerLeg.trailingStop = none ∧
        runnerLeg.highestPrice = some signal.price) ∧
    (signal.type ≠ SignalType.LONG →
      createTwoLegPosition signal usdcAmount tpMultiplier stopMultiplier
          rndTp rndRunner rndPos =
        Except.error "Can only create positions from LONG signals") := by
  constructor
  · intro h
    unfold createTwoLegPosition
    rw [if_neg (by simp [h])]
    exact ⟨_, _, rfl, rfl, rfl, rfl, rfl, rfl, rfl, rfl, rfl, rfl, rfl, rfl⟩
  · intro h
    unfold createTwoLegPosition
    rw [if_pos h]

/-- C8 witness: a LONG signal with entry 100, atr 10, tpMultiplier 1 yields
a target of `100 + 10·1 = 110` and the advertised leg structure. -/
theorem c8_open_two_legs_witness :
    ∃ tpLeg runnerLeg,
      createTwoLegPosition
          { type := SignalType.LONG, timestamp := 0, price := 100, mfi := 50, atr := 10 }
          100 1 (5/2) "r1" "r2" "r3" = Except.ok [tpLeg, runnerLeg] ∧
      tpLeg.type = LegType.TP ∧ runnerLeg.type = LegType.RUNNER ∧
      tpLeg.status = LegStatus.OPEN ∧ runnerLeg.status = LegStatus.OPEN ∧
      tpLeg.positionId = some (generatePositionId 0 "r3") ∧
      runnerLeg.positionId = tpLeg.positionId ∧
      tpLeg.quantity = 100 / 100 ∧
      runnerLeg.quantity = tpLeg.quantity ∧
      tpLeg.targetPrice = some (100 + 10 * 1) ∧
      runnerLeg.trailingStop = none ∧
      runnerLeg.highestPrice = some 100 :=
  (c8_open_two_legs
    { type := SignalType.LONG, timestamp := 0, price := 100, mfi := 50, atr := 10 }
    100 1 (5/2) "r1" "r2" "r3").1 rfl

/-! ## C6 — the tripped state is latched -/

/-- `checkConditions` can only set `tripped`, never clear it. -/
theorem checkConditions_tripped (config : CircuitBreakerConfig) (value : ℚ)
    (t : CircuitBreakerState) (h : t.tripped = true) :
    (checkConditions config value t).tripped = true := by
  simp only [checkConditions, tripBreaker]
  split
  · rfl
  · split
    · rfl
    · exact h

/-- Any single circuit-breaker operation other than the explicit manual
`reset` preserves `tripped = true`. -/
theorem cbStep_preserves_tripped (config : CircuitBreakerConfig) (op : CBOp)
    (s : CircuitBreakerState) (h : s.tripped = true) (hop : op ≠ CBOp.resetOp) :
    (cbStep config op s).tripped = true := by
  cases op with
  | resetDailyOp today =>
    simp only [cbStep, resetDaily]
    split <;> simpa using h
  | canTradeOp now today =>
    simp only [cbStep, resetDaily]
    split <;> simpa using h
  | recordTradeOp pnl value now =>
    exact checkConditions_tripped config value _ h
  | tripOp reason => rfl
  | resetOp => exact absurd rfl hop

/-- C6: once `tripped` is true it stays true across every sequence of
circuit-breaker operations that contains no explicit `reset()`;
`resetDaily` (day rollover) zeroes `dailyPnl` and `tradesExecutedToday` but
leaves `tripped` and `consecutiveLosses` unchanged; only `reset()` clears
`tripped` (and `consecutiveLosses`). -/
theorem c6_tripped_latch (config : CircuitBreakerConfig)
    (s : CircuitBreakerState) (ops : List CBOp) (today : String) :
    (s.tripped = true → (∀ op ∈ ops, op ≠ CBOp.resetOp) →
      (cbRun config ops s).tripped = true) ∧
    ((resetDaily today s).tripped = s.tripped ∧
     (resetDaily today s).consecutiveLosses = s.consecutiveLosses) ∧
    (today ≠ s.resetDate →
      (resetDaily today s).dailyPnl = 0 ∧
      (resetDaily today s).tradesExecutedToday = 0) ∧
    ((resetBreaker s).tripped = false ∧ (resetBreaker s).consecutiveLosses = 0) := by
  refine ⟨?_, ⟨?_, ?_⟩, ?_, rfl, rfl⟩
  · intro htrip hops
    induction ops generalizing s with
    | nil => exact htrip
    | cons op rest ih =>
      have hstep := cbStep_preserves_tripped config op s htrip
        (hops op (List.mem_cons_self op rest))
      exact ih (cbStep config op s) hstep fun o ho => hops o (List.mem_cons_of_mem op ho)
  · unfold resetDaily; split <;> rfl
  · unfold resetDaily; split <;> rfl
  · intro hday
    unfold resetDaily
    rw [if_pos hday]
    exact ⟨rfl, rfl⟩

/-- C6 witness: a tripped breaker survives a day rollover followed by a
trade record and a `canTrade` probe, and the rollover zeroes the daily
counters without touching `tripped`/`consecutiveLosses`. -/
theorem c6_tripped_latch_witness :
    (let s : CircuitBreakerState :=
      { dailyPnl := -50, consecutiveLosses := 2, tradesExecutedToday := 3
        lastTradeTimestamp := 1000, tripped := true
        tripReason := some (TripReason.consecutiveLossLimit 2 2)
        resetDate := "2024-01-01" }
     let config : CircuitBreakerConfig :=
      { maxDailyLossPct := 5, maxConsecutiveLosses := 2, maxDailyTrades := 10
        minTimeBetweenTradesMs := 0, maxPriceDeviationPct := 10 }
     (cbRun config
        [CBOp.resetDailyOp "2024-01-02", CBOp.recordTradeOp 10 1000 2000,
         CBOp.canTradeOp 3000 "2024-01-02"] s).tripped = true ∧
     (resetDaily "2024-01-02" s).tripped = s.tripped ∧
     (resetDaily "2024-01-02" s).consecutiveLosses = s.consecutiveLosses ∧
     (resetDaily "2024-01-02" s).dailyPnl = 0 ∧
     (resetDaily "2024-01-02" s).tradesExecutedToday = 0 ∧
     (resetBreaker s).tripped = false ∧
     (resetBreaker s).consecutiveLosses = 0) := by
  have h := c6_tripped_latch
    { maxDailyLossPct := 5, maxConsecutiveLosses := 2, maxDailyTrades := 10
      minTimeBetweenTradesMs := 0, maxPriceDeviationPct := 10 }
    { dailyPnl := -50, consecutiveLosses := 2, tradesExecutedToday := 3
      lastTradeTimestamp := 1000, tripped := true
      tripReason := some (TripReason.consecutiveLossLimit 2 2)
      resetDate := "2024-01-01" }
    [CBOp.resetDailyOp "2024-01-02", CBOp.recordTradeOp 10 1000 2000,
     CBOp.canTradeOp 3000 "2024-01-02"]
    "2024-01-02"
  refine ⟨h.1 rfl ?_, h.2.1.1, h.2.1.2, (h.2.2.1 ?_).1, (h.2.2.1 ?_).2, h.2.2.2⟩
  · intro op hop
    fin_cases hop <;> simp
  · simp
  · simp

/-! ## C7 — `recordTrade` characterization -/

/-- C7: for every trade record with a positive portfolio value,
`recordTrade` increments the trade counter, adds the pnl to `dailyPnl`,
stamps `lastTradeTimestamp` with the current time, resets
`consecutiveLosses` to 0 on non-negative pnl and increments it otherwise,
and afterwards the breaker is tripped exactly when it was already tripped
or the updated daily pnl over the portfolio value falls below
`-maxDailyLossPct` (in percent) or the updated consecutive-loss count
reaches `maxConsecutiveLosses`; whenever a trip condition fires, a trip
reason is recorded. -/
theorem c7_recordTrade_spec (config : CircuitBreakerConfig) (pnl value : ℚ)
    (now : ℤ) (s : CircuitBreakerState) (hv : 0 < value) :
    (recordTrade config pnl value now s).tradesExecutedToday
        = s.tradesExecutedToday + 1 ∧
    (recordTrade config pnl value now s).dailyPnl = s.dailyPnl + pnl ∧
    (recordTrade config pnl value now s).lastTradeTimestamp = now ∧
    (recordTrade config pnl value now s).consecutiveLosses
        = (if pnl < 0 then s.consecutiveLosses + 1 else 0) ∧
    ((recordTrade config pnl value now s).tripped = true ↔
      (s.tripped = true ∨
       (s.dailyPnl + pnl) / value < -(config.maxDailyLossPct / 100) ∨
       config.maxConsecutiveLosses ≤ (if pnl < 0 then s.consecutiveLosses + 1 else 0))) ∧
    (((s.dailyPnl + pnl) / value < -(config.maxDailyLossPct / 100) ∨
      config.maxConsecutiveLosses ≤ (if pnl < 0 then s.consecutiveLosses + 1 else 0)) →
      (recordTrade config pnl value now s).tripReason.isSome = true) := by
  have hvne : value ≠ 0 := ne_of_gt hv
  have hiff : (s.dailyPnl + pnl) / value * 100 < -config.maxDailyLossPct ↔
      (s.dailyPnl + pnl) / value < -(config.maxDailyLossPct / 100) := by
    rw [← neg_div]
    constructor
    · intro h
      have := (div_lt_div_iff_of_pos_right (by norm_num : (0:ℚ) < 100)).mpr h
      simpa [mul_div_assoc] using this
    · intro h
      have := (mul_lt_mul_iff_of_pos_right (by norm_num : (0:ℚ) < 100)).mpr h
      calc (s.dailyPnl + pnl) / value * 100 < -config.maxDailyLossPct / 100 * 100 := this
        _ = -config.maxDailyLossPct := by ring
  simp only [recordTrade, checkConditions, jsDiv, if_neg hvne, jsMul100, jsLtQ,
    tripBreaker]
  by_cases h1 : (s.dailyPnl + pnl) / value * 100 < -config.maxDailyLossPct
  · simp [h1, hiff.mp h1]
  · by_cases h2 : config.maxConsecutiveLosses ≤
        (if pnl < 0 then s.consecutiveLosses + 1 else 0)
    · simp [h1, h2]
    · simp only [h1, h2, if_false, decide_eq_true_eq, ite_false, ite_true]
      simp [h1, h2]
      constructor <;> exact fun h => absurd (hiff.mpr h) h1

/-- C7 witness: starting untripped with one prior loss, a losing trade of
-60 against a portfolio of 1000 with a 5% daily-loss limit updates all
counters and trips the breaker with a recorded reason. -/
theorem c7_recordTrade_spec_witness :
    (let config : CircuitBreakerConfig :=
      { maxDailyLossPct := 5, maxConsecutiveLosses := 10, maxDailyTrades := 10
        minTimeBetweenTradesMs := 0, maxPriceDeviationPct := 10 }
     let s : CircuitBreakerState :=
      { dailyPnl := -10, consecutiveLosses := 1, tradesExecutedToday := 2
        lastTradeTimestamp := 500, tripped := false, tripReason := none
        resetDate := "2024-01-01" }
     (recordTrade config (-60) 1000 900 s).tradesExecutedToday = 3 ∧
     (recordTrade config (-60) 1000 900 s).dailyPnl = -70 ∧
     (recordTrade config (-60) 1000 900 s).lastTradeTimestamp = 900 ∧
     (recordTrade config (-60) 1000 900 s).consecutiveLosses = 2 ∧
     (recordTrade config (-60) 1000 900 s).tripped = true ∧
     (recordTrade config (-60) 1000 900 s).tripReason.isSome = true) := by
  have h := c7_recordTrade_spec
    { maxDailyLossPct := 5, maxConsecutiveLosses := 10, maxDailyTrades := 10
      minTimeBetweenTradesMs := 0, maxPriceDeviationPct := 10 }
    (-60) 1000 900
    { dailyPnl := -10, consecutiveLosses := 1, tradesExecutedToday := 2
      lastTradeTimestamp := 500, tripped := false, tripReason := none
      resetDate := "2024-01-01" }
    (by norm_num)
  have hcond : ((-10 : ℚ) + -60) / 1000 < -((5 : ℚ) / 100) := by norm_num
  refine ⟨h.1, by rw [h.2.1]; norm_num, h.2.2.1, by rw [h.2.2.2.1]; norm_num,
    h.2.2.2.2.1.mpr (Or.inr (Or.inl hcond)),
    h.2.2.2.2.2 (Or.inl hcond)⟩

/-! ## C10 — update/trim are length- and identity-preserving, index-aligned -/

/-- The creation-time fields the engine must never touch. -/
def coreFieldsEq (a b : PositionLeg) : Prop :=
  b.id = a.id ∧ b.positionId = a.positionId ∧ b.type = a.type ∧
  b.entryPrice = a.entryPrice ∧ b.quantity = a.quantity ∧ b.entryTime = a.entryTime

/-- `updateLeg` keeps the creation-time fields and returns CLOSED legs
unchanged. -/
theorem updateLeg_core (tpJC : Bool) (p atr tm bm : ℚ) (now : ℤ)
    (leg : PositionLeg) :
    coreFieldsEq leg (updateLeg tpJC p atr tm bm now leg) ∧
    (leg.status = LegStatus.CLOSED → updateLeg tpJC p atr tm bm now leg = leg) := by
  constructor
  · unfold coreFieldsEq updateLeg runnerUpdate
    repeat' split
    all_goals exact ⟨rfl, rfl, rfl, rfl, rfl, rfl⟩
  · intro hc
    unfold updateLeg
    rw [if_pos hc]

/-- The loop body of `closeRunnersOnTrimSignal` keeps the creation-time
fields and returns CLOSED legs unchanged. -/
theorem trimLeg_core (signal : Signal) (leg : PositionLeg) :
    coreFieldsEq leg
      (if leg.type = LegType.RUNNER ∧ leg.status = LegStatus.OPEN then
        { leg with
            status := LegStatus.CLOSED
            closePrice := some signal.price
            closeTime := some signal.timestamp
            closeReason := some "Trim signal (MFI < 70)" }
      else leg) ∧
    (leg.status = LegStatus.CLOSED →
      (if leg.type = LegType.RUNNER ∧ leg.status = LegStatus.OPEN then
        { leg with
            status := LegStatus.CLOSED
            closePrice := some signal.price
            closeTime := some signal.timestamp
            closeReason := some "Trim signal (MFI < 70)" }
      else leg) = leg) := by
  split_ifs with h
  · exact ⟨⟨rfl, rfl, rfl, rfl, rfl, rfl⟩, fun hc => by
      rw [hc] at h
      exact absurd h.2 (by simp)⟩
  · exact ⟨⟨rfl, rfl, rfl, rfl, rfl, rfl⟩, fun _ => rfl⟩

/-- C10: `update` and `trim` return lists of the same length as their
input, with the leg at every index keeping its `id`, `positionId`, `type`,
`entryPrice`, `quantity` and `entryTime`, and every CLOSED input leg
returned unchanged — the alignment the brokers' post-update execution
loops (`legs[i]` vs `updatedLegs[i]`) rely on. -/
theorem c10_update_trim_alignment (legs : List PositionLeg)
    (p atr tm bm : ℚ) (now : ℤ) (signal : Signal) :
    (updatePositions legs p atr tm bm now).length = legs.length ∧
    (closeRunnersOnTrimSignal legs signal).length = legs.length ∧
    (∀ (i : ℕ) (leg : PositionLeg), legs[i]? = some leg →
      ∃ leg', (updatePositions legs p atr tm bm now)[i]? = some leg' ∧
        coreFieldsEq leg leg' ∧ (leg.status = LegStatus.CLOSED → leg' = leg)) ∧
    (∀ (i : ℕ) (leg : PositionLeg), legs[i]? = some leg →
      ∃ leg', (closeRunnersOnTrimSignal legs signal)[i]? = some leg' ∧
        coreFieldsEq leg leg' ∧ (leg.status = LegStatus.CLOSED → leg' = leg)) := by
  refine ⟨?_, ?_, ?_, ?_⟩
  · simp [updatePositions]
  · unfold closeRunnersOnTrimSignal
    split <;> simp
  · intro i leg hleg
    refine ⟨updateLeg (tpJustClosedCheck legs p) p atr tm bm now leg, ?_, ?_, ?_⟩
    · simp [updatePositions, List.getElem?_map, hleg]
    · exact (updateLeg_core _ _ _ _ _ _ _).1
    · exact (updateLeg_core _ _ _ _ _ _ _).2
  · intro i leg hleg
    unfold closeRunnersOnTrimSignal
    split
    · exact ⟨leg, hleg, ⟨rfl, rfl, rfl, rfl, rfl, rfl⟩, fun _ => rfl⟩
    · refine ⟨_, ?_, (trimLeg_core signal leg).1, (trimLeg_core signal leg).2⟩
      simp [List.getElem?_map, hleg]

/-- C10 witness: on the concrete two-leg list `[exTpA, exRunnerA]` the
updated list at price 110 is index-aligned with preserved creation fields,
and likewise for a trim signal. -/
theorem c10_update_trim_alignment_witness :
    (updatePositions [exTpA, exRunnerA] 110 10 (5/2) (1/4) 7).length = 2 ∧
    (∃ leg', (updatePositions [exTpA, exRunnerA] 110 10 (5/2) (1/4) 7)[0]? = some leg' ∧
      coreFieldsEq exTpA leg' ∧ (exTpA.status = LegStatus.CLOSED → leg' = exTpA)) ∧
    (∃ leg',
      (closeRunnersOnTrimSignal [exTpA, exRunnerA]
        { type := SignalType.SHORT, timestamp := 9, price := 105, mfi := 60, atr := 10 })[1]?
        = some leg' ∧
      coreFieldsEq exRunnerA leg' ∧
      (exRunnerA.status = LegStatus.CLOSED → leg' = exRunnerA)) := by
  have h := c10_update_trim_alignment [exTpA, exRunnerA] 110 10 (5/2) (1/4) 7
    { type := SignalType.SHORT, timestamp := 9, price := 105, mfi := 60, atr := 10 }
  exact ⟨h.1, h.2.2.1 0 exTpA rfl, h.2.2.2 1 exRunnerA rfl⟩

/-! ## C3 — breakeven-lock activation -/

/-- C3 counterexample: the TP scan of `updatePositions` does not filter by
`positionId`.  In `[exTpA, exRunnerB]` the only TP leg belongs to position
"A" and closes at 110, yet the runner of the unrelated position "B"
(entry 200, no stop) gets its trailing stop activated in the same call —
to `202.5 = max(200 − 10·2.5, 200 + 10·0.25)` — and is even closed by it,
contradicting "not when an unrelated TP leg of a different position
closes". -/
theorem c3_sibling_counterexample :
    (updatePositions [exTpA, exRunnerB] 110 10 (5/2) (1/4) 7).map
        PositionLeg.trailingStop = [none, some (405/2)] ∧
    exRunnerB.trailingStop = none ∧
    exRunnerB.positionId = some "B" ∧
    (∀ leg ∈ [exTpA, exRunnerB],
      leg.positionId = some "B" → leg.type ≠ LegType.TP) := by
  refine ⟨?_, rfl, rfl, ?_⟩
  · norm_num [updatePositions, updateLeg, runnerUpdate, runnerStopAfterActivation,
      runnerNewHighest, tpJustClosedCheck, jsOrQ, updateTrailingStop, exTpA,
      exRunnerA, exRunnerB, legStatus_open_ne, legStatus_closed_ne,
      legType_tp_ne, legType_runner_ne]
  · decide

/-- C3 (amended): an OPEN RUNNER leg with no trailing stop yet has its stop
activated by `update()` exactly when *some* OPEN TP leg anywhere in the
input list satisfies `currentPrice ≥ (targetPrice || 0)` in this same call
— the scan does not restrict to the sibling leg sharing the runner's
`positionId` — and the activated stop is the breakeven lock
`entry + breakevenLockMultiplier·atr` ratcheted once by the normal trailing
rule, i.e. `max(newHighest − atr·trailMultiplier, entry + atr·bm)`;
when no such TP leg exists the stop stays absent. -/
theorem c3_breakeven_lock_amended (legs : List PositionLeg)
    (p atr tm bm : ℚ) (now : ℤ) (i : ℕ) (leg : PositionLeg)
    (hleg : legs[i]? = some leg) (htype : leg.type = LegType.RUNNER)
    (hopen : leg.status = LegStatus.OPEN) (hstop : leg.trailingStop = none) :
    ∃ leg', (updatePositions legs p atr tm bm now)[i]? = some leg' ∧
      ((∃ tp ∈ legs, tp.type = LegType.TP ∧ tp.status = LegStatus.OPEN ∧
          jsOrQ tp.targetPrice 0 ≤ p) →
        leg'.trailingStop = some (updateTrailingStop (runnerNewHighest p leg)
          (leg.entryPrice + atr * bm) atr tm)) ∧
      ((¬ ∃ tp ∈ legs, tp.type = LegType.TP ∧ tp.status = LegStatus.OPEN ∧
          jsOrQ tp.targetPrice 0 ≤ p) →
        leg'.trailingStop = none) := by
  have hscan : tpJustClosedCheck legs p = true ↔
      (∃ tp ∈ legs, tp.type = LegType.TP ∧ tp.status = LegStatus.OPEN ∧
        jsOrQ tp.targetPrice 0 ≤ p) := by
    simp [tpJustClosedCheck, List.any_eq_true]
  refine ⟨updateLeg (tpJustClosedCheck legs p) p atr tm bm now leg, ?_, ?_, ?_⟩
  · simp [updatePositions, List.getElem?_map, hleg]
  · intro hex
    have hck : tpJustClosedCheck legs p = true := hscan.mpr hex
    simp only [updateLeg, hopen, htype, legStatus_open_ne, if_false,
      runnerUpdate, runnerStopAfterActivation, hck, hstop, and_self, if_true,
      ite_true]
    split <;> rfl
  · intro hnex
    have hck : tpJustClosedCheck legs p = false := by
      cases hc : tpJustClosedCheck legs p
      · rfl
      · exact absurd (hscan.mp hc) hnex
    simp only [updateLeg, hopen, htype, legStatus_open_ne, if_false,
      runnerUpdate, runnerStopAfterActivation, hck, hstop]
    simp [hstop]

/-- C3 witness: the spec's own scenario — position "A" with TP target 110
and a stop-less runner (entry 100), price rising to 110, atr 10,
breakevenLockMultiplier 1/4, trailMultiplier 5/2: the TP leg closes at 110
and the runner's trailing stop becomes `max(110 − 25, 100 + 2.5) = 102.5`
in the same call. -/
theorem c3_breakeven_lock_amended_witness :
    (∃ leg', (updatePositions [exTpA, exRunnerA] 110 10 (5/2) (1/4) 7)[1]?
        = some leg' ∧
      leg'.trailingStop = some (updateTrailingStop (runnerNewHighest 110 exRunnerA)
        (exRunnerA.entryPrice + 10 * (1/4)) 10 (5/2))) ∧
    updateTrailingStop (runnerNewHighest 110 exRunnerA)
      (exRunnerA.entryPrice + 10 * (1/4)) 10 (5/2) = 205/2 ∧
    (updatePositions [exTpA, exRunnerA] 110 10 (5/2) (1/4) 7).map
      PositionLeg.closePrice = [some 110, none] := by
  obtain ⟨leg', h1, h2, _⟩ :=
    c3_breakeven_lock_amended [exTpA, exRunnerA] 110 10 (5/2) (1/4) 7 1
      exRunnerA rfl rfl rfl rfl
  refine ⟨⟨leg', h1, h2 ⟨exTpA, by decide, rfl, rfl, by norm_num [exTpA, jsOrQ]⟩⟩, ?_, ?_⟩
  · norm_num [updateTrailingStop, runnerNewHighest, exRunnerA, jsOrQ]
  · norm_num [updatePositions, updateLeg, runnerUpdate, runnerStopAfterActivation,
      runnerNewHighest, tpJustClosedCheck, jsOrQ, updateTrailingStop, exTpA,
      exRunnerA, legStatus_open_ne, legStatus_closed_ne, legType_tp_ne,
      legType_runner_ne]

/-! ## C5 — risk-gate position counting -/

/-- The count the claim describes: distinct `positionId` values among OPEN
legs (this definition follows the claim's words, for comparison with the
source's `getOpenPositionCountForAsset`). -/
def specDistinctOpenPositionIds (ap : AssetPositions) : ℕ :=
  (((getOpenLegs ap.openLegs).filterMap PositionLeg.positionId).dedup).length

/-- Total of `specDistinctOpenPositionIds` over all assets (claim's words). -/
def specTotalDistinctOpenPositionIds (state : MultiAssetBotState) : ℕ :=
  state.assetPositions.foldl (fun total ap => total + specDistinctOpenPositionIds ap) 0

/-- The decision procedure the claim describes: same four conditions in the
same order as `canAssetTrade`, but counting only distinct `positionId`
values (this definition follows the claim's words). -/
def specCanAssetTrade (state : MultiAssetBotState) (assetSymbol : String)
    (config : MultiAssetManagerConfig) (currentTime : ℤ) : TradeDecision :=
  match getAssetPositions state assetSymbol with
  | none => TradeDecision.denied DenyReason.assetNotFound
  | some assetPos =>
    let assetOpenPositions := specDistinctOpenPositionIds assetPos
    if config.maxPositionsPerAsset ≤ assetOpenPositions then
      TradeDecision.denied
        (DenyReason.assetAtMaxPositions assetOpenPositions config.maxPositionsPerAsset)
    else
      let totalOpen := specTotalDistinctOpenPositionIds state
      if config.maxTotalPositions ≤ totalOpen then
        TradeDecision.denied (DenyReason.totalAtMax totalOpen config.maxTotalPositions)
      else
        if 0 < assetPos.lastTradeTime ∧
            currentTime - assetPos.lastTradeTime < config.minTimeBetweenTradesMs then
          TradeDecision.denied (DenyReason.cooldown
            (config.minTimeBetweenTradesMs - (currentTime - assetPos.lastTradeTime)))
        else
          TradeDecision.allowed

/-- A legacy OPEN leg without `positionId`, entry time 1. -/
def exLegacyLeg1 : PositionLeg :=
  { exTpA with id := "legacy-1", positionId := none, entryTime := 1 }

/-- A legacy OPEN leg without `positionId`, entry time 2. -/
def exLegacyLeg2 : PositionLeg :=
  { exTpA with id := "legacy-2", positionId := none, entryTime := 2 }

/-- Asset state holding the two legacy legs. -/
def exLegacyAp : AssetPositions :=
  { asset := "BTC", openLegs := [exLegacyLeg1, exLegacyLeg2]
    lastSignalTime := 0, lastTradeTime := 0 }

/-- Multi-asset state holding only the legacy asset. -/
def exLegacyState : MultiAssetBotState :=
  { lastProcessedCandleTime := 0, lastDayReset := "2024-01-01"
    assetPositions := [exLegacyAp] }

/-- Risk-gate config fixture: two positions per asset, no cooldown. -/
def exRiskConfig : MultiAssetManagerConfig :=
  { maxPositionsPerAsset := 2, maxTotalPositions := 10, minTimeBetweenTradesMs := 0 }

/-- C5 counterexample: with two OPEN legacy legs lacking `positionId`
(entry times 1 and 2), `canAssetTrade` counts them via the
`asset:entryTime` fallback as 2 open positions and denies the trade at
`maxPositionsPerAsset = 2`, whereas the number of distinct `positionId`
values among the open legs — the claim's count — is 0. -/
theorem c5_legacy_fallback_counterexample :
    canAssetTrade exLegacyState "BTC" exRiskConfig 100 =
      TradeDecision.denied (DenyReason.assetAtMaxPositions 2 2) ∧
    specDistinctOpenPositionIds exLegacyAp = 0 ∧
    specCanAssetTrade exLegacyState "BTC" exRiskConfig 100 = TradeDecision.allowed := by
  refine ⟨?_, ?_, ?_⟩ <;> decide

/-- `map (positionKey a)` coincides with `filterMap positionId` on a list
whose legs all carry a `positionId`. -/
theorem positionKey_map_eq_filterMap (a : String) (l : List PositionLeg)
    (h : ∀ leg ∈ l, leg.positionId.isSome = true) :
    l.map (positionKey a) = l.filterMap PositionLeg.positionId := by
  induction l with
  | nil => rfl
  | cons leg t ih =>
    obtain ⟨p, hp⟩ := Option.isSome_iff_exists.mp (h leg (List.mem_cons_self leg t))
    rw [List.map_cons, List.filterMap_cons, hp]
    rw [ih fun x hx => h x (List.mem_cons_of_mem leg hx)]
    simp [positionKey, hp]

/-- On an asset whose OPEN legs all carry a `positionId`, the source's
fallback count agrees with the claim's distinct-`positionId` count. -/
theorem openCount_eq_specCount (ap : AssetPositions)
    (h : ∀ leg ∈ ap.openLegs, leg.positionId.isSome = true) :
    getOpenPositionCountForAsset ap = specDistinctOpenPositionIds ap := by
  unfold getOpenPositionCountForAsset specDistinctOpenPositionIds
  rw [positionKey_map_eq_filterMap ap.asset (getOpenLegs ap.openLegs)
    fun leg hleg => h leg (List.mem_of_mem_filter hleg)]

/-- Totals agree as well when every open leg of every asset carries a
`positionId`. -/
theorem totalOpen_eq_specTotal (state : MultiAssetBotState)
    (h : ∀ ap ∈ state.assetPositions, ∀ leg ∈ ap.openLegs,
      leg.positionId.isSome = true) :
    getTotalOpenPositions state = specTotalDistinctOpenPositionIds state := by
  unfold getTotalOpenPositions specTotalDistinctOpenPositionIds
  have key : ∀ (l : List AssetPositions) (init : ℕ),
      (∀ ap ∈ l, getOpenPositionCountForAsset ap = specDistinctOpenPositionIds ap) →
      l.foldl (fun total ap => total + getOpenPositionCountForAsset ap) init =
        l.foldl (fun total ap => total + specDistinctOpenPositionIds ap) init := by
    intro l
    induction l with
    | nil => intro init _; rfl
    | cons ap t ih =>
      intro init hl
      rw [List.foldl_cons, List.foldl_cons, hl ap (List.mem_cons_self ap t)]
      exact ih _ fun a ha => hl a (List.mem_cons_of_mem ap ha)
  exact key state.assetPositions 0 fun ap hap => openCount_eq_specCount ap (h ap hap)

/-- C5 (amended): when every OPEN leg carries a `positionId`,
`canAssetTrade` decides exactly as the claim's distinct-`positionId`
procedure (same four denial conditions, same order, `Allowed` otherwise).
On legs without a `positionId` the source falls back to grouping by
`asset:entryTime`, which the counterexample separates. -/
theorem c5_canAssetTrade_amended (state : MultiAssetBotState)
    (assetSymbol : String) (config : MultiAssetManagerConfig) (currentTime : ℤ)
    (h : ∀ ap ∈ state.assetPositions, ∀ leg ∈ ap.openLegs,
      leg.positionId.isSome = true) :
    canAssetTrade state assetSymbol config currentTime =
      specCanAssetTrade state assetSymbol config currentTime := by
  unfold canAssetTrade specCanAssetTrade
  cases hfind : getAssetPositions state assetSymbol with
  | none => rfl
  | some ap =>
    have hmem : ap ∈ state.assetPositions :=
      List.mem_of_find?_eq_some hfind
    dsimp only
    rw [openCount_eq_specCount ap (h ap hmem), totalOpen_eq_specTotal state h]

/-- C5 witness: one open two-leg position (both legs sharing positionId
"A") with `maxPositionsPerAsset = 2` is `Allowed`, and the source decision
agrees with the claim's distinct-`positionId` decision. -/
theorem c5_canAssetTrade_amended_witness :
    canAssetTrade
        { lastProcessedCandleTime := 0, lastDayReset := "2024-01-01"
          assetPositions := [{ asset := "BTC", openLegs := [exTpA, exRunnerA]
                               lastSignalTime := 0, lastTradeTime := 0 }] }
        "BTC" exRiskConfig 100 =
      specCanAssetTrade
        { lastProcessedCandleTime := 0, lastDayReset := "2024-01-01"
          assetPositions := [{ asset := "BTC", openLegs := [exTpA, exRunnerA]
                               lastSignalTime := 0, lastTradeTime := 0 }] }
        "BTC" exRiskConfig 100 ∧
    canAssetTrade
        { lastProcessedCandleTime := 0, lastDayReset := "2024-01-01"
          assetPositions := [{ asset := "BTC", openLegs := [exTpA, exRunnerA]
                               lastSignalTime := 0, lastTradeTime := 0 }] }
        "BTC" exRiskConfig 100 = TradeDecision.allowed :=
  ⟨c5_canAssetTrade_amended _ "BTC" exRiskConfig 100 (by decide), by decide⟩

/-! ## C9 — monotonicity of `highestPrice` and `trailingStop` -/

/-- Parameters of one `update()` call. -/
structure UpdateCall where
  price : ℚ
  atr : ℚ
  trailMult : ℚ
  beLock : ℚ
  now : ℤ
deriving DecidableEq, Repr

/-- A sequence of `update()` calls on a leg list. -/
def runUpdates (calls : List UpdateCall) (legs : List PositionLeg) :
    List PositionLeg :=
  calls.foldl
    (fun ls c => updatePositions ls c.price c.atr c.trailMult c.beLock c.now) legs

/-- "Once present, can only grow": every value the left option holds is
dominated by a value the right option holds. -/
def optionMono (a b : Option ℚ) : Prop :=
  ∀ x, a = some x → ∃ y, b = some y ∧ x ≤ y

theorem optionMono_refl (a : Option ℚ) : optionMono a a :=
  fun x hx => ⟨x, hx, le_rfl⟩

theorem optionMono_trans {a b c : Option ℚ} (hab : optionMono a b)
    (hbc : optionMono b c) : optionMono a c := by
  intro x hx
  obtain ⟨y, hy, hxy⟩ := hab x hx
  obtain ⟨z, hz, hyz⟩ := hbc y hy
  exact ⟨z, hz, le_trans hxy hyz⟩

/-- A recorded highest price never exceeds the refreshed one (the `0`-falsy
fallback to `entryPrice` needs a non-negative entry price). -/
theorem le_runnerNewHighest (p : ℚ) (leg : PositionLeg)
    (hentry : 0 ≤ leg.entryPrice) (x : ℚ) (hx : leg.highestPrice = some x) :
    x ≤ runnerNewHighest p leg := by
  have hor : jsOrQ leg.highestPrice leg.entryPrice
      = if x = 0 then leg.entryPrice else x := by
    rw [hx]
    rfl
  unfold runnerNewHighest
  rw [hor]
  by_cases h0 : x = 0
  · subst h0
    rw [if_pos rfl]
    exact le_trans hentry (le_max_left _ _)
  · rw [if_neg h0]
    exact le_max_left _ _

/-- One `updateLeg` step can only raise `highestPrice` and `trailingStop`. -/
theorem updateLeg_mono (tpJC : Bool) (p atr tm bm : ℚ) (now : ℤ)
    (leg : PositionLeg) (hentry : 0 ≤ leg.entryPrice) :
    optionMono leg.highestPrice (updateLeg tpJC p atr tm bm now leg).highestPrice ∧
    optionMono leg.trailingStop (updateLeg tpJC p atr tm bm now leg).trailingStop := by
  unfold updateLeg
  split
  · exact ⟨optionMono_refl _, optionMono_refl _⟩
  · split
    · -- TP leg: neither field is touched in any branch
      split
      · split
        · exact ⟨optionMono_refl _, optionMono_refl _⟩
        · exact ⟨optionMono_refl _, optionMono_refl _⟩
      · exact ⟨optionMono_refl _, optionMono_refl _⟩
    · -- RUNNER leg
      unfold runnerUpdate
      split
      · -- no stop after activation: only highestPrice is refreshed
        next heq =>
        constructor
        · intro x hx
          exact ⟨runnerNewHighest p leg, rfl, le_runnerNewHighest p leg hentry x hx⟩
        · intro x hx
          exact ⟨x, hx, le_rfl⟩
      · next stop heq =>
        have hxstop : ∀ x, leg.trailingStop = some x →
            x ≤ updateTrailingStop (runnerNewHighest p leg) stop atr tm := by
          intro x hx
          have hcond : ¬ (tpJC = true ∧ leg.trailingStop = none) := by
            rintro ⟨-, hnone⟩
            rw [hx] at hnone
            exact Option.noConfusion hnone
          unfold runnerStopAfterActivation at heq
          rw [if_neg hcond, hx] at heq
          obtain rfl : x = stop := Option.some_inj.mp heq
          unfold updateTrailingStop
          exact le_max_right _ _
        split
        · constructor
          · intro x hx
            exact ⟨runnerNewHighest p leg, rfl, le_runnerNewHighest p leg hentry x hx⟩
          · intro x hx
            exact ⟨_, rfl, hxstop x hx⟩
        · constructor
          · intro x hx
            exact ⟨runnerNewHighest p leg, rfl, le_runnerNewHighest p leg hentry x hx⟩
          · intro x hx
            exact ⟨_, rfl, hxstop x hx⟩

/-- When a RUNNER leg already carries a stop, one update step sets it to
`max(previous stop, newHighest − atr·trailMultiplier)` — never lower. -/
theorem updateLeg_stop_step (tpJC : Bool) (p atr tm bm : ℚ) (now : ℤ)
    (leg : PositionLeg) (x : ℚ) (hopen : leg.status = LegStatus.OPEN)
    (htype : leg.type = LegType.RUNNER) (hstop : leg.trailingStop = some x) :
    (updateLeg tpJC p atr tm bm now leg).trailingStop =
      some (max x (runnerNewHighest p leg - atr * tm)) := by
  simp only [updateLeg, hopen, legStatus_open_ne, if_false, htype]
  simp only [runnerUpdate, runnerStopAfterActivation, hstop]
  have hcond : ¬ (tpJC = true ∧ (some x : Option ℚ) = none) := by
    rintro ⟨-, hnone⟩
    exact Option.noConfusion hnone
  rw [if_neg hcond]
  dsimp only
  split <;> simp [updateTrailingStop, max_comm]

/-- One whole-list `updatePositions` step, seen at one index. -/
theorem updatePositions_mono (legs : List PositionLeg) (p atr tm bm : ℚ)
    (now : ℤ) (i : ℕ) (leg : PositionLeg) (hleg : legs[i]? = some leg)
    (hentry : 0 ≤ leg.entryPrice) :
    ∃ leg', (updatePositions legs p atr tm bm now)[i]? = some leg' ∧
      leg'.entryPrice = leg.entryPrice ∧
      optionMono leg.highestPrice leg'.highestPrice ∧
      optionMono leg.trailingStop leg'.trailingStop := by
  refine ⟨updateLeg (tpJustClosedCheck legs p) p atr tm bm now leg, ?_, ?_, ?_, ?_⟩
  · simp [updatePositions, List.getElem?_map, hleg]
  · exact (updateLeg_core _ _ _ _ _ _ _).1.2.2.2.1
  · exact (updateLeg_mono _ _ _ _ _ _ _ hentry).1
  · exact (updateLeg_mono _ _ _ _ _ _ _ hentry).2

/-- C9: along any sequence of `update()` calls (arbitrary price, ATR and
multipliers per call), the leg at any index keeps its entry price, its
`highestPrice` is non-decreasing, and once `trailingStop` is set it is
non-decreasing; moreover each single step on a stop-carrying RUNNER leg
sets the stop to `max(previous, newHighest − atr·trailMultiplier)`. -/
theorem c9_runner_monotone (calls : List UpdateCall) (legs : List PositionLeg)
    (i : ℕ) (leg : PositionLeg) (hleg : legs[i]? = some leg)
    (hentry : 0 ≤ leg.entryPrice) :
    (∃ leg', (runUpdates calls legs)[i]? = some leg' ∧
      leg'.entryPrice = leg.entryPrice ∧
      optionMono leg.highestPrice leg'.highestPrice ∧
      optionMono leg.trailingStop leg'.trailingStop) ∧
    (∀ (tpJC : Bool) (p atr tm bm : ℚ) (now : ℤ) (l : PositionLeg) (x : ℚ),
      l.status = LegStatus.OPEN → l.type = LegType.RUNNER →
      l.trailingStop = some x →
      (updateLeg tpJC p atr tm bm now l).trailingStop =
        some (max x (runnerNewHighest p l - atr * tm))) := by
  constructor
  · induction calls generalizing legs leg with
    | nil => exact ⟨leg, hleg, rfl, optionMono_refl _, optionMono_refl _⟩
    | cons c rest ih =>
      obtain ⟨leg1, h1, he1, hm1, hs1⟩ :=
        updatePositions_mono legs c.price c.atr c.trailMult c.beLock c.now i leg
          hleg hentry
      obtain ⟨leg', h2, he2, hm2, hs2⟩ :=
        ih (updatePositions legs c.price c.atr c.trailMult c.beLock c.now) leg1 h1
          (he1 ▸ hentry)
      exact ⟨leg', h2, he2.trans he1, optionMono_trans hm1 hm2,
        optionMono_trans hs1 hs2⟩
  · intro tpJC p atr tm bm now l x hopen htype hstop
    exact updateLeg_stop_step tpJC p atr tm bm now l x hopen htype hstop

/-- C9 witness: two consecutive updates (price 110 then 105) on the
two-leg position keep the runner's fields monotone. -/
theorem c9_runner_monotone_witness :
    (∃ leg',
      (runUpdates [⟨110, 10, 5/2, 1/4, 7⟩, ⟨105, 10, 5/2, 1/4, 8⟩]
        [exTpA, exRunnerA])[1]? = some leg' ∧
      leg'.entryPrice = exRunnerA.entryPrice ∧
      optionMono exRunnerA.highestPrice leg'.highestPrice ∧
      optionMono exRunnerA.trailingStop leg'.trailingStop) ∧
    (∀ (tpJC : Bool) (p atr tm bm : ℚ) (now : ℤ) (l : PositionLeg) (x : ℚ),
      l.status = LegStatus.OPEN → l.type = LegType.RUNNER →
      l.trailingStop = some x →
      (updateLeg tpJC p atr tm bm now l).trailingStop =
        some (max x (runnerNewHighest p l - atr * tm))) :=
  c9_runner_monotone [⟨110, 10, 5/2, 1/4, 7⟩, ⟨105, 10, 5/2, 1/4, 8⟩]
    [exTpA, exRunnerA] 1 exRunnerA rfl (by norm_num [exRunnerA, exTpA])

end TradingBot
